/-
  Verification of the connection/session core of the ctrader-order-bot bridge.

  The repository bundles several near-duplicate variants of the bridge.  We
  embed the relevant parts of each variant that the specification claims talk
  about:

  * namespace `Index`   — the main `index.js` (SmartTokenManager,
    RobustcTraderClient, express `/order` and `/token-update` endpoints);
  * namespace `PartOne` — the first variant in `src/unnamed/part_001`
    (module-level `pending` map, `sendWS`, `openSocket` handlers,
    `refreshToken` with explicit 429 handling);
  * namespace `PartTwoV` — the final variant in `src/unnamed/part_002`
    (the `/order` handler with an explicit 504 timeout branch).

  All embeddings are written as executable functions over explicit state so
  that concrete runs can be checked by `decide`/`rfl`.
-/
import Mathlib

/- ====================================================================
   Namespace Index : embedding of src/index.js
   ==================================================================== -/

namespace Index

/-- JavaScript truthy-or-default on an optional number: used for
`data.expiresIn || 2628000` — note that `0` is falsy in JS, so a reported
`expiresIn` of `0` falls back to the default. -/
def jsOrDefault (v : Option Int) (d : Int) : Int :=
  match v with
  | none => d
  | some x => if x = 0 then d else x

/-- Embedding of `SmartTokenManager.scheduleNextRefresh` (src/index.js lines 253-270):
clamps the requested delay (in seconds) to `[3600, 27*24*3600]`
(min 1 hour, max 27 days) before arming the timer. -/
def scheduleNextRefresh (seconds : Int) : Int :=
  min (max seconds 3600) (27 * 24 * 3600)

/-- The delay actually scheduled by `refreshAccessToken` after a successful
refresh (src/index.js lines 150-158): `expiresIn` defaults to 2628000 seconds
(30 days) when absent or zero, and the timer is armed for
`expiresIn - 259200` seconds (3 day buffer), clamped by
`scheduleNextRefresh`. -/
def nextRefreshDelay (expiresIn : Option Int) : Int :=
  scheduleNextRefresh (jsOrDefault expiresIn 2628000 - 259200)

/-- State of the `SmartTokenManager` relevant to `getValidToken`
(src/index.js lines 59-95). -/
structure TMState where
  accessToken : Option String
  expiryTime : Int
  isRefreshing : Bool
  deriving DecidableEq, Repr

/-- What a single call to `getValidToken` does synchronously, before any
awaiting: return the cached token, join the in-flight refresh as a waiter,
or start a refresh of its own. -/
inductive TokenDecision where
  | useCached (t : String)
  | waitForRefresh
  | startRefresh
  deriving DecidableEq, Repr

/-- Embedding of `SmartTokenManager.getValidToken` (src/index.js lines 71-95): cached
token if it is valid for at least one more hour, otherwise wait on an
in-flight refresh, otherwise start a refresh. -/
def getValidToken (now : Int) (s : TMState) : TokenDecision :=
  match s.accessToken with
  | some t =>
      if now < s.expiryTime - 3600000 then TokenDecision.useCached t
      else if s.isRefreshing then TokenDecision.waitForRefresh
      else TokenDecision.startRefresh
  | none =>
      if s.isRefreshing then TokenDecision.waitForRefresh
      else TokenDecision.startRefresh

/-- Number of HTTPS requests to the token endpoint that a decision issues:
only `startRefresh` reaches `refreshAccessToken`'s `fetch`. -/
def httpCallsOf : TokenDecision → Nat
  | TokenDecision.startRefresh => 1
  | _ => 0

/-- How a caller parked in the wait loop of `getValidToken` is settled once
`isRefreshing` drops (src/index.js lines 80-91): resolve with the manager's
`accessToken` if one is set, otherwise reject. -/
def waiterResult (s : TMState) : Except String String :=
  match s.accessToken with
  | some t => Except.ok t
  | none => Except.error "Token refresh failed"

/-- Outcome of `refreshAccessToken`'s catch branch (src/index.js lines
163-187) for an HTTP 429 response: the thrown message is
"HTTP 429: ..." which contains neither ACCESS_DENIED nor INVALID_GRANT, so
with `retryCount+1 < maxRetries` a retry is scheduled after
`min (60000 * 2^(retryCount+1)) 300000` ms — and the error is rethrown to
the caller in every branch.  Returns (errorPropagated, scheduledRetryDelay). -/
def refreshOn429 (retryCount maxRetries : Nat) : Bool × Option Nat :=
  let rc := retryCount + 1
  if maxRetries ≤ rc then (true, none)
  else (true, some (min (60000 * 2 ^ rc) 300000))

/- --------------------------------------------------------------------
   RobustcTraderClient (src/index.js lines 283-602)
   -------------------------------------------------------------------- -/

/-- cTrader payload types used by index.js (MSG_TYPES, lines 33-42). -/
def APPLICATION_AUTH_RES : Nat := 2101
def ACCOUNT_AUTH_RES : Nat := 2103
def NEW_ORDER_RES : Nat := 2121
def HEARTBEAT_EVENT : Nat := 51
def ERROR_RES : Nat := 2142

/-- An inbound wire message as index.js reads it: the `payloadType`, the
optional `clientMsgId`, and `payload?.errorCode` (the only payload field the
dispatch logic looks at). -/
structure Msg where
  payloadType : Nat
  clientMsgId : Option String
  errorCode : Option String
  deriving DecidableEq, Repr

/-- State of a `RobustcTraderClient`: the authentication flag, whether the
heartbeat interval is armed, the keys of the `messageHandlers` map, whether a
reconnect timer is armed, and the last heartbeat receipt time. -/
structure ClientState where
  isAuthenticated : Bool
  heartbeatOn : Bool
  messageHandlers : List String
  reconnectScheduled : Bool
  lastHeartbeatTime : Int
  deriving DecidableEq, Repr

/-- Observable side effects of the client's dispatch logic. -/
inductive CAction where
  | sendAccountAuth
  | startHeartbeat
  | handleOrderResponse
  | handleError
  | invokeHandler (id : String)
  | rejectHandler (id : String) (msg : String)
  deriving DecidableEq, Repr

/-- Embedding of `RobustcTraderClient.handleMessage` (src/index.js lines 401-449).
The switch on `payloadType`: a successful APPLICATION_AUTH_RES triggers
`authenticateAccount()`; a successful ACCOUNT_AUTH_RES sets
`isAuthenticated` and starts the heartbeat; NEW_ORDER_RES and ERROR_RES go
to their loggers; HEARTBEAT_EVENT stamps `lastHeartbeatTime`; everything
else is looked up in `messageHandlers` (invoke + delete on hit, ignore on
miss). -/
def handleMessage (now : Int) (m : Msg) (st : ClientState) :
    ClientState × List CAction :=
  if m.payloadType = APPLICATION_AUTH_RES then
    if m.errorCode = none then (st, [CAction.sendAccountAuth]) else (st, [])
  else if m.payloadType = ACCOUNT_AUTH_RES then
    if m.errorCode = none then
      ({ st with isAuthenticated := true, heartbeatOn := true },
       [CAction.startHeartbeat])
    else (st, [])
  else if m.payloadType = NEW_ORDER_RES then (st, [CAction.handleOrderResponse])
  else if m.payloadType = ERROR_RES then (st, [CAction.handleError])
  else if m.payloadType = HEARTBEAT_EVENT then
    ({ st with lastHeartbeatTime := now }, [])
  else
    match m.clientMsgId with
    | some id =>
        if id ∈ st.messageHandlers then
          ({ st with messageHandlers := st.messageHandlers.erase id },
           [CAction.invokeHandler id])
        else (st, [])
    | none => (st, [])

/-- Embedding of `RobustcTraderClient.onMessage` (src/index.js lines 327-334): parse the
frame; on parse failure log and return — state untouched, no dispatch.  The
parser is abstract here (the code uses JSON.parse). -/
def onMessage (parse : String → Option Msg) (now : Int) (raw : String)
    (st : ClientState) : ClientState × List CAction :=
  match parse raw with
  | none => (st, [])
  | some m => handleMessage now m st

/-- Embedding of `RobustcTraderClient.onClose` (src/index.js lines 336-348): clear the
auth flag, stop the heartbeat, and (unless the close code is 1008 or 4000)
schedule a reconnect.  The `messageHandlers` map is not touched: no entry is
rejected and nothing is removed. -/
def onClose (code : Nat) (st : ClientState) : ClientState × List CAction :=
  let st1 := { st with isAuthenticated := false, heartbeatOn := false }
  if code = 1008 ∨ code = 4000 then (st1, [])
  else ({ st1 with reconnectScheduled := true }, [])

/-- Fold `handleMessage` over a trace of inbound messages, accumulating the
emitted actions. -/
def runClient (now : Int) (st : ClientState) :
    List Msg → ClientState × List CAction
  | [] => (st, [])
  | m :: ms =>
      let p := handleMessage now m st
      let q := runClient now p.1 ms
      (q.1, p.2 ++ q.2)

/- --------------------------------------------------------------------
   sendOrder and the /order endpoint (src/index.js lines 479-524, 671-758)
   -------------------------------------------------------------------- -/

/-- Embedding of `RobustcTraderClient.isReady` (src/index.js lines 588-592): socket open
and account-authenticated. -/
def isReady (wsOpen : Bool) (st : ClientState) : Bool :=
  wsOpen && st.isAuthenticated

/-- The body of a `POST /order` request, restricted to the fields the
validation logic of index.js inspects. -/
structure OrderBody where
  symbol : Option String
  symbolId : Option Int
  side : Option Int
  volume : Option Int
  otype : Option Int
  deriving DecidableEq, Repr

/-- The SYMBOLS name table (src/index.js lines 45-53). -/
def SYMBOLS : String → Option Int
  | "EURUSD" => some 1
  | "GBPUSD" => some 2
  | "USDJPY" => some 3
  | "USDCHF" => some 4
  | "AUDUSD" => some 5
  | "USDCAD" => some 6
  | "NZDUSD" => some 7
  | _ => none

/-- How the awaited `sendOrder` promise settles for a given exchange with
the broker (src/index.js lines 499-524). -/
inductive OrderOutcome where
  | success
  | brokerReject (desc : String)
  | timeout
  | sendFail
  deriving DecidableEq, Repr

/-- Result of the `/order` express handler: HTTP status, whether anything
was written to the socket, and whether a PendingRequest (messageHandlers
entry) was registered. -/
structure OrderResp where
  status : Nat
  sentOnSocket : Bool
  registeredPending : Bool
  deriving DecidableEq, Repr

/-- JavaScript truthiness of an optional number (`0` and absent are falsy). -/
def jsTruthyInt (v : Option Int) : Bool :=
  match v with
  | none => false
  | some x => x != 0

/-- JavaScript truthiness of an optional string (empty and absent are falsy). -/
def jsTruthyStr (v : Option String) : Bool :=
  match v with
  | none => false
  | some s => s != ""

/-- The `/order` handler of index.js (lines 671-758): 503 when the client
is not ready (before anything touches the socket); then symbol resolution
(`SYMBOLS[symbol.toUpperCase()]` when `symbolId` is falsy) and field
validation, each failure a 400; then `sendOrder`, whose success resolves to
a 200 `res.json` and whose every rejection — broker reject, 15-second
timeout, or send failure — lands in the catch block and is reported as
400. -/
def orderEndpoint (wsOpen : Bool) (st : ClientState) (b : OrderBody)
    (outcome : OrderOutcome) : OrderResp :=
  if !(isReady wsOpen st) then ⟨503, false, false⟩
  else
    let finalSymbolId : Option Int :=
      if jsTruthyInt b.symbolId then b.symbolId
      else if jsTruthyStr b.symbol then SYMBOLS ((b.symbol.getD "").toUpper)
      else none
    if !(jsTruthyInt finalSymbolId) then ⟨400, false, false⟩
    else if !(jsTruthyInt b.side && jsTruthyInt b.volume) then ⟨400, false, false⟩
    else if !(b.side = some 1 ∨ b.side = some 2) then ⟨400, false, false⟩
    else if jsTruthyInt b.otype &&
            !(b.otype = some 1 ∨ b.otype = some 2 ∨ b.otype = some 3) then
      ⟨400, false, false⟩
    else
      match outcome with
      | OrderOutcome.success => ⟨200, true, true⟩
      | OrderOutcome.brokerReject _ => ⟨400, true, true⟩
      | OrderOutcome.timeout => ⟨400, true, true⟩
      | OrderOutcome.sendFail => ⟨400, true, true⟩

/- --------------------------------------------------------------------
   GET /token-update (src/index.js lines 761-785)
   -------------------------------------------------------------------- -/

/-- Response body shape of `/token-update`. -/
inductive TokenUpdateResp where
  | unauthorized
  | tokenAvailable (t : String)
  | noPending
  deriving DecidableEq, Repr

/-- The `/token-update` handler: compare the presented key with
`TOKEN_UPDATE_KEY`; on mismatch 401 and no state change; on match, either
hand out the pending refresh token and clear it, or report that none is
pending.  Returns (status, body, new pendingRefreshToken). -/
def tokenUpdate (authKey cfgKey : Option String) (pending : Option String) :
    Nat × TokenUpdateResp × Option String :=
  if authKey ≠ cfgKey then (401, TokenUpdateResp.unauthorized, pending)
  else
    match pending with
    | some t => (200, TokenUpdateResp.tokenAvailable t, none)
    | none => (200, TokenUpdateResp.noPending, none)

end Index

/- ====================================================================
   Namespace PartOne : embedding of the first variant in
   src/unnamed/part_001 (lines 1-242)
   ==================================================================== -/

namespace PartOne

/-- How a PendingRequest promise settles. -/
inductive Settle where
  | resolved
  | rejectedWith (msg : String)
  deriving DecidableEq, Repr

/-- Events acting on the module-level `pending` map: `sendWS` registering a
fresh clientMsgId (lines 76-86), the safety timeout of a request firing, and
an inbound frame carrying a clientMsgId (lines 139-151).  A timeout event
for an id that is no longer pending never fires in the code (dispatch called
`clearTimeout`), so it is a no-op here. -/
inductive Ev where
  | register (id : String)
  | timeoutFire (id : String)
  | reply (id : String)
  deriving DecidableEq, Repr

/-- One event against the `pending` map (keys only — the stored
resolve/reject closures are represented by the settle log).  `register`
inserts; `timeoutFire` deletes and rejects with the timeout error;
`reply` resolves and deletes on a hit, and on a miss the message falls
through to the unsolicited-event handling, leaving the map alone. -/
def step (s : List String) : Ev → List String × List (String × Settle)
  | Ev.register id => if id ∈ s then (s, []) else (id :: s, [])
  | Ev.timeoutFire id =>
      if id ∈ s then (s.erase id, [(id, Settle.rejectedWith "WS response timeout")])
      else (s, [])
  | Ev.reply id =>
      if id ∈ s then (s.erase id, [(id, Settle.resolved)]) else (s, [])

/-- Run a trace of correlator events, accumulating the settle log. -/
def run (s : List String) : List Ev → List String × List (String × Settle)
  | [] => (s, [])
  | e :: es =>
      let p := step s e
      let q := run p.1 es
      (q.1, p.2 ++ q.2)

/-- How many times a given id was settled (resolved or rejected) in a log. -/
def settleCount (id : String) : List (String × Settle) → Nat
  | [] => 0
  | p :: ps => (if p.1 = id then 1 else 0) + settleCount id ps

/-- How many `register` events for a given id a trace contains. -/
def regCount (id : String) : List Ev → Nat
  | [] => 0
  | Ev.register j :: es => (if j = id then 1 else 0) + regCount id es
  | Ev.timeoutFire _ :: es => regCount id es
  | Ev.reply _ :: es => regCount id es

/-- Membership of an id in the pending map, as a count (0 or 1 for
duplicate-free maps). -/
def memInd (id : String) (s : List String) : Nat :=
  if id ∈ s then 1 else 0

/- --------------------------------------------------------------------
   Socket lifecycle (openSocket, lines 103-184)
   -------------------------------------------------------------------- -/

/-- Observable effects of the part_001 socket handlers. -/
inductive P1Action where
  | rejectClosed (id : String)
  | scheduleReconnect (delayMs : Nat)
  | sendAppAuth
  deriving DecidableEq, Repr

/-- Module-level state of the part_001 bridge. -/
structure P1State where
  pending : List String
  pingOn : Bool
  socketReady : Bool
  reconnectDelay : Nat
  deriving DecidableEq, Repr

/-- The `ws.on('close')` handler (lines 170-181): stop the ping timer,
reject every pending promise with the connection-closed error, clear the
map, arm the reconnect timer with the current backoff delay, then double
the backoff (capped at 60 s).  No authentication happens in this handler;
the next incarnation's APP-AUTH is sent only when the reconnect timer fires
and `openSocket`'s own open handler runs. -/
def wsOnClose (st : P1State) : P1State × List P1Action :=
  ({ st with pending := [], pingOn := false,
             reconnectDelay := min (st.reconnectDelay * 2) 60000 },
   (st.pending.map (fun id => P1Action.rejectClosed id)) ++
     [P1Action.scheduleReconnect st.reconnectDelay])

/-- Embedding of the `refreshToken` handling of an HTTP 429 (lines 53-57): wait
`30000 + random*30000` ms and call itself again; the awaiting caller gets
the retry's outcome, not an error.  `rand30` stands for
`Math.random()*30_000`.  Returns (retryDelayMs, errorToCaller). -/
def refresh429 (rand30 : Nat) : Nat × Bool :=
  (30000 + rand30, false)

/-- An inbound frame as the part_001 handlers see it: `payloadType`,
`clientMsgId`, and `payload?.errorCode`.  The dispatch of lines 146-151
resolves a pending promise on the `clientMsgId` alone — the payload and its
`errorCode` are carried along but never examined there. -/
structure Frame where
  payloadType : Nat
  clientMsgId : Option String
  errorCode : Option String
  deriving DecidableEq, Repr

/-- Where the part_001 open-handler coroutine (lines 107-137) is suspended:
awaiting the app-auth reply, awaiting the account-auth reply (each at the
clientMsgId its `sendWS` registered), or past both awaits. -/
inductive HsPhase where
  | awaitingAppAuth (id : String)
  | awaitingAccAuth (id : String)
  | ready
  deriving DecidableEq, Repr

/-- State the part_001 handshake drives: the coroutine phase plus the
module-level `socketReady`, ping timer and `reconnectDelay`. -/
structure HsState where
  phase : HsPhase
  socketReady : Bool
  pingOn : Bool
  reconnectDelay : Nat
  deriving DecidableEq, Repr

/-- Effects of resuming the open-handler coroutine. -/
inductive HsAction where
  | sendAccountAuth (id : String)
  | startPing
  | sendReconcile
  deriving DecidableEq, Repr

/-- One inbound frame driving the part_001 handshake (lines 107-137
together with the dispatch of lines 146-151): a frame echoing the awaited
clientMsgId resolves that `sendWS` promise — with no check of the payload
or its errorCode — and the coroutine continues: after the app-auth await it
sends the account-auth request (a fresh clientMsgId, `accId` here); after
the account-auth await it sets `socketReady`, resets the backoff to 5000 ms,
starts the ping timer and fires the non-blocking reconcile send.  Frames
not echoing the awaited id leave the handshake where it was. -/
def hsDispatch (accId : String) (f : Frame) (st : HsState) :
    HsState × List HsAction :=
  match st.phase with
  | HsPhase.awaitingAppAuth id =>
      if f.clientMsgId = some id then
        ({ st with phase := HsPhase.awaitingAccAuth accId },
         [HsAction.sendAccountAuth accId])
      else (st, [])
  | HsPhase.awaitingAccAuth id =>
      if f.clientMsgId = some id then
        ({ st with phase := HsPhase.ready, socketReady := true,
                   pingOn := true, reconnectDelay := 5000 },
         [HsAction.startPing, HsAction.sendReconcile])
      else (st, [])
  | HsPhase.ready => (st, [])

/-- The part_001 `ws.on('message')` handler prologue (lines 139-151): the
frame is JSON-parsed inside try/catch; on failure the handler returns at
once — the pending map is untouched and nothing is dispatched.  On success,
a frame carrying a pending clientMsgId resolves and removes that entry; any
other frame is handled as an unsolicited event and leaves the map alone.
A frame is abstracted as (payloadType, clientMsgId). -/
def onFrame (parse : String → Option (Nat × Option String)) (raw : String)
    (s : List String) : List String × List (String × Settle) :=
  match parse raw with
  | none => (s, [])
  | some m =>
      match m.2 with
      | some id => step s (Ev.reply id)
      | none => (s, [])

/-- The guard of the part_001 `/order` handler (lines 193-194): a request
arriving while `socketReady` is false is answered 503 before the body is
even destructured; nothing is sent and no PendingRequest is registered.
Returns (status, sentOnSocket, registeredPending) with the non-ready case
fully decided; the ready case submits through `sendWS` with a 15 s
timeout. -/
def orderGuard (socketReady : Bool) : Option (Nat × Bool × Bool) :=
  if !socketReady then some (503, false, false) else none

end PartOne

/- ====================================================================
   Namespace PartTwoV : embedding of the final variant in
   src/unnamed/part_002 (lines 718-1159), the /order handler with an
   explicit timeout branch
   ==================================================================== -/

namespace PartTwoV

/-- How the per-order message listener concludes (lines 1035-1086): the
30-second timer fires with no matching reply, or a reply with the order's
clientMsgId arrives with some payloadType. -/
inductive Outcome where
  | timeout
  | reply (payloadType : Nat)
  deriving DecidableEq, Repr

/-- Status mapping of the listener (lines 1041-1082): timeout → 504;
payloadType 2121 (ORDER_NEW_RES) → 200; 2142 (ERROR_RES) → 400; any other
correlated reply → 500. -/
def listenerStatus : Outcome → Nat
  | Outcome.timeout => 504
  | Outcome.reply pt => if pt = 2121 then 200 else if pt = 2142 then 400 else 500

/-- The full `/order` handler of this variant (lines 983-1087): 503 when
the socket is not open and authenticated; 400 when the minimal validation
fails (`!(symbolId || symbol) || !side || !volume ||
(type !== '1' && price === undefined)`); otherwise the listener outcome
decides the status. -/
def orderEndpoint (socketOpen isAuthenticated : Bool)
    (hasSymbol hasSide hasVolume : Bool) (otype : String) (hasPrice : Bool)
    (outcome : Outcome) : Nat :=
  if !(socketOpen && isAuthenticated) then 503
  else if !hasSymbol || !hasSide || !hasVolume ||
          (otype != "1" && !hasPrice) then 400
  else listenerStatus outcome

end PartTwoV

/- ====================================================================
   Helper lemmas about the part_001 correlator
   ==================================================================== -/

theorem PartOne.settleCount_append (id : String)
    (l1 l2 : List (String × PartOne.Settle)) :
    PartOne.settleCount id (l1 ++ l2) =
      PartOne.settleCount id l1 + PartOne.settleCount id l2 := by
  induction l1 with
  | nil => simp [PartOne.settleCount]
  | cons p ps ih => simp [PartOne.settleCount, ih]; omega

theorem PartOne.step_nodup (s : List String) (e : PartOne.Ev) (h : s.Nodup) :
    (PartOne.step s e).1.Nodup := by
  cases e with
  | register j =>
      by_cases hj : j ∈ s
      · simpa [PartOne.step, hj] using h
      · simpa [PartOne.step, hj] using List.nodup_cons.2 ⟨hj, h⟩
  | timeoutFire j =>
      by_cases hj : j ∈ s
      · simpa [PartOne.step, hj] using h.erase j
      · simpa [PartOne.step, hj] using h
  | reply j =>
      by_cases hj : j ∈ s
      · simpa [PartOne.step, hj] using h.erase j
      · simpa [PartOne.step, hj] using h

theorem PartOne.step_contrib (s : List String) (id : String) (e : PartOne.Ev)
    (h : s.Nodup) :
    PartOne.settleCount id (PartOne.step s e).2 +
      PartOne.memInd id (PartOne.step s e).1 ≤
      PartOne.memInd id s + PartOne.regCount id [e] := by
  cases e with
  | register j =>
      by_cases hj : j ∈ s
      · simp only [PartOne.step, if_pos hj, PartOne.settleCount,
          PartOne.regCount, PartOne.memInd]
        split_ifs <;> omega
      · simp only [PartOne.step, if_neg hj, PartOne.settleCount,
          PartOne.regCount, PartOne.memInd, List.mem_cons]
        split_ifs <;> simp_all
  | timeoutFire j =>
      by_cases hj : j ∈ s
      · by_cases hij : id = j
        · subst hij
          simp only [PartOne.step, if_pos hj, PartOne.settleCount,
            PartOne.regCount, PartOne.memInd, h.not_mem_erase]
          simp [hj]
        · simp only [PartOne.step, if_pos hj, PartOne.settleCount,
            PartOne.regCount, PartOne.memInd, List.mem_erase_of_ne hij]
          split_ifs <;> simp_all
      · simp only [PartOne.step, if_neg hj, PartOne.settleCount,
          PartOne.regCount, PartOne.memInd]
        omega
  | reply j =>
      by_cases hj : j ∈ s
      · by_cases hij : id = j
        · subst hij
          simp only [PartOne.step, if_pos hj, PartOne.settleCount,
            PartOne.regCount, PartOne.memInd, h.not_mem_erase]
          simp [hj]
        · simp only [PartOne.step, if_pos hj, PartOne.settleCount,
            PartOne.regCount, PartOne.memInd, List.mem_erase_of_ne hij]
          split_ifs <;> simp_all
      · simp only [PartOne.step, if_neg hj, PartOne.settleCount,
          PartOne.regCount, PartOne.memInd]
        omega

theorem PartOne.settle_inv (t : List PartOne.Ev) :
    ∀ (s : List String) (id : String), s.Nodup →
      PartOne.settleCount id (PartOne.run s t).2 +
        PartOne.memInd id (PartOne.run s t).1 ≤
        PartOne.memInd id s + PartOne.regCount id t := by
  induction t with
  | nil => intro s id _; simp [PartOne.run, PartOne.settleCount, PartOne.regCount]
  | cons e es ih =>
      intro s id h
      have h1 := PartOne.step_contrib s id e h
      have h2 := ih (PartOne.step s e).1 id (PartOne.step_nodup s e h)
      have hreg : PartOne.regCount id (e :: es) =
          PartOne.regCount id [e] + PartOne.regCount id es := by
        cases e <;> simp [PartOne.regCount]
      simp only [PartOne.run]
      rw [PartOne.settleCount_append, hreg]
      omega

/- ====================================================================
   C2 : request correlation — exactly one settle per PendingRequest
   ==================================================================== -/

/-- C2: every registered PendingRequest is settled at most once along any
sequence of correlator events; a timeout rejects with the timeout error and
deletes the entry; a reply for an id that is no longer pending leaves the
map untouched and resolves nothing (it falls through to the
unsolicited-event handling); and in index.js a correlated reply whose
clientMsgId has no registered handler is a complete no-op of the dispatch
switch. -/
theorem c2_correlator_exactly_once :
    (∀ (t : List PartOne.Ev) (id : String),
        PartOne.regCount id t ≤ 1 →
        PartOne.settleCount id (PartOne.run [] t).2 ≤ 1)
    ∧ (∀ (s : List String) (id : String), id ∈ s →
        PartOne.step s (PartOne.Ev.timeoutFire id) =
          (s.erase id, [(id, PartOne.Settle.rejectedWith "WS response timeout")]))
    ∧ (∀ (s : List String) (id : String), id ∉ s →
        PartOne.step s (PartOne.Ev.reply id) = (s, []))
    ∧ (∀ (now : Int) (m : Index.Msg) (st : Index.ClientState),
        m.payloadType ≠ Index.APPLICATION_AUTH_RES →
        m.payloadType ≠ Index.ACCOUNT_AUTH_RES →
        m.payloadType ≠ Index.NEW_ORDER_RES →
        m.payloadType ≠ Index.ERROR_RES →
        m.payloadType ≠ Index.HEARTBEAT_EVENT →
        (∀ id, m.clientMsgId = some id → id ∉ st.messageHandlers) →
        Index.handleMessage now m st = (st, [])) := by
  refine ⟨?_, ?_, ?_, ?_⟩
  · intro t id hreg
    have h := PartOne.settle_inv t [] id List.nodup_nil
    simp [PartOne.memInd] at h
    omega
  · intro s id h
    simp [PartOne.step, h]
  · intro s id h
    simp [PartOne.step, h]
  · intro now m st h1 h2 h3 h4 h5 h6
    simp only [Index.handleMessage, if_neg h1, if_neg h2, if_neg h3,
      if_neg h4, if_neg h5]
    cases hm : m.clientMsgId with
    | none => rfl
    | some id => simp [h6 id hm]

/-- Witness for C2 at a concrete trace: register, timeout, then a late
reply for the same id — the late reply is dropped and the id is settled
exactly once. -/
theorem c2_correlator_exactly_once_witness :
    PartOne.settleCount "a" (PartOne.run []
        [PartOne.Ev.register "a", PartOne.Ev.timeoutFire "a",
         PartOne.Ev.reply "a"]).2 ≤ 1
    ∧ PartOne.step ["a"] (PartOne.Ev.timeoutFire "a") =
        ((["a"] : List String).erase "a",
         [("a", PartOne.Settle.rejectedWith "WS response timeout")])
    ∧ PartOne.step [] (PartOne.Ev.reply "a") = ([], [])
    ∧ Index.handleMessage 0 ⟨9999, some "x", none⟩ ⟨false, false, [], false, 0⟩
        = (⟨false, false, [], false, 0⟩, []) := by
  refine ⟨c2_correlator_exactly_once.1 _ "a" (by decide),
          c2_correlator_exactly_once.2.1 _ "a" (by decide),
          c2_correlator_exactly_once.2.2.1 _ "a" (by decide),
          c2_correlator_exactly_once.2.2.2 0 _ _ (by decide) (by decide)
            (by decide) (by decide) (by decide) ?_⟩
  intro id h
  simp at h
  subst h
  simp

/- ====================================================================
   C1 : draining of the pending map on socket close
   ==================================================================== -/

/-- C1 counterexample: in index.js, `onClose` does not drain the
PendingRequest map.  Closing the socket (ordinary close code 1006) on a
client with one registered messageHandlers entry leaves that entry in the
map and emits no rejection — the map is neither rejected entry-by-entry nor
emptied before the reconnect that the same handler schedules. -/
theorem c1_close_drain_counterexample :
    (Index.onClose 1006 ⟨true, true, ["order_1"], false, 0⟩).1.messageHandlers
        = ["order_1"]
    ∧ (Index.onClose 1006 ⟨true, true, ["order_1"], false, 0⟩).2 = []
    ∧ (Index.onClose 1006 ⟨true, true, ["order_1"], false, 0⟩).1.reconnectScheduled
        = true
    ∧ (["order_1"] : List String) ≠ [] := by
  refine ⟨rfl, rfl, rfl, by decide⟩

/-- C1 amended: in the part_001 variant the close handler does drain the
map — every pending entry is rejected with the connection-closed error and
the map is cleared in the same handler invocation, and no authentication of
the next incarnation happens there (only a reconnect timer is armed); in
index.js, by contrast, `onClose` leaves the messageHandlers map untouched
and rejects nothing — entries are removed only by their own timeout or by a
matching reply. -/
theorem c1_close_drain_amended :
    (∀ st : PartOne.P1State, (PartOne.wsOnClose st).1.pending = [])
    ∧ (∀ st : PartOne.P1State, ∀ id ∈ st.pending,
        PartOne.P1Action.rejectClosed id ∈ (PartOne.wsOnClose st).2)
    ∧ (∀ st : PartOne.P1State,
        PartOne.P1Action.sendAppAuth ∉ (PartOne.wsOnClose st).2)
    ∧ (∀ st : PartOne.P1State,
        PartOne.P1Action.scheduleReconnect st.reconnectDelay
          ∈ (PartOne.wsOnClose st).2)
    ∧ (∀ (code : Nat) (st : Index.ClientState),
        (Index.onClose code st).1.messageHandlers = st.messageHandlers) := by
  refine ⟨?_, ?_, ?_, ?_, ?_⟩
  · intro st; rfl
  · intro st id h
    simp [PartOne.wsOnClose]
    exact h
  · intro st
    simp [PartOne.wsOnClose]
  · intro st
    simp [PartOne.wsOnClose]
  · intro code st
    by_cases h : code = 1008 ∨ code = 4000 <;> simp [Index.onClose, h]

/-- Witness for C1 amended at a concrete state with two pending requests. -/
theorem c1_close_drain_amended_witness :
    PartOne.P1Action.rejectClosed "m_1"
        ∈ (PartOne.wsOnClose ⟨["m_1", "m_2"], true, true, 5000⟩).2 :=
  c1_close_drain_amended.2.1 ⟨["m_1", "m_2"], true, true, 5000⟩ "m_1"
    (by decide)

/- ====================================================================
   C3 : handshake sequencing — account auth after app auth,
        heartbeat after account auth
   ==================================================================== -/

/-- C3 counterexample: in the part_001 handshake the awaits of the open
handler resolve on any frame echoing the awaited clientMsgId — the payload
and its errorCode are never examined — so a gateway answer to account-auth
carrying an error payload still resolves the await, sets `socketReady` and
starts the ping timer, and an app-auth reply carrying an error payload
still triggers the account-auth send. -/
theorem c3_handshake_sequencing_counterexample :
    (⟨39, some "m_acc", some "CH_CTID_TRADER_ACCOUNT_NOT_FOUND"⟩
        : PartOne.Frame).errorCode ≠ none
    ∧ (PartOne.hsDispatch "m_next"
        ⟨39, some "m_acc", some "CH_CTID_TRADER_ACCOUNT_NOT_FOUND"⟩
        ⟨PartOne.HsPhase.awaitingAccAuth "m_acc", false, false, 5000⟩).1
        = ⟨PartOne.HsPhase.ready, true, true, 5000⟩
    ∧ PartOne.HsAction.startPing ∈
        (PartOne.hsDispatch "m_next"
          ⟨39, some "m_acc", some "CH_CTID_TRADER_ACCOUNT_NOT_FOUND"⟩
          ⟨PartOne.HsPhase.awaitingAccAuth "m_acc", false, false, 5000⟩).2
    ∧ PartOne.HsAction.sendAccountAuth "m_next" ∈
        (PartOne.hsDispatch "m_next"
          ⟨39, some "m_app", some "CH_CLIENT_AUTH_FAILURE"⟩
          ⟨PartOne.HsPhase.awaitingAppAuth "m_app", false, false, 5000⟩).2 := by
  refine ⟨by decide, by decide, by decide, by decide⟩

/-- C3 amended: in index.js the claimed sequencing holds with the error
checks — the account-auth request is sent exactly in response to an
error-free application-auth reply, the heartbeat starts exactly in response
to an error-free account-auth reply, an account-auth reply carrying an
error payload is a complete no-op, and along any message trace a heartbeat
start (resp. an account-auth send) implies a successful account-auth
(resp. application-auth) reply occurred.  In the part_001 handshake the
sequencing holds — account-auth is sent only in response to a frame echoing
the awaited app-auth clientMsgId, and the ping starts only in response to a
frame echoing the awaited account-auth clientMsgId — but without any error
check: the dispatch is invariant under the frame payloadType and
errorCode, so an error-payload answer resolves the await all the same. -/
theorem c3_handshake_sequencing_amended :
    (∀ (now : Int) (m : Index.Msg) (st : Index.ClientState),
      Index.CAction.sendAccountAuth ∈ (Index.handleMessage now m st).2 ↔
        m.payloadType = Index.APPLICATION_AUTH_RES ∧ m.errorCode = none)
    ∧ (∀ (now : Int) (m : Index.Msg) (st : Index.ClientState),
      Index.CAction.startHeartbeat ∈ (Index.handleMessage now m st).2 ↔
        m.payloadType = Index.ACCOUNT_AUTH_RES ∧ m.errorCode = none)
    ∧ (∀ (now : Int) (m : Index.Msg) (st : Index.ClientState),
        m.payloadType = Index.ACCOUNT_AUTH_RES → m.errorCode ≠ none →
        Index.handleMessage now m st = (st, []))
    ∧ (∀ (now : Int) (msgs : List Index.Msg) (st : Index.ClientState),
        Index.CAction.startHeartbeat ∈ (Index.runClient now st msgs).2 →
        ∃ m ∈ msgs, m.payloadType = Index.ACCOUNT_AUTH_RES
          ∧ m.errorCode = none)
    ∧ (∀ (now : Int) (msgs : List Index.Msg) (st : Index.ClientState),
        Index.CAction.sendAccountAuth ∈ (Index.runClient now st msgs).2 →
        ∃ m ∈ msgs, m.payloadType = Index.APPLICATION_AUTH_RES
          ∧ m.errorCode = none)
    ∧ (∀ (accId : String) (f : PartOne.Frame) (st : PartOne.HsState),
        PartOne.HsAction.startPing ∈ (PartOne.hsDispatch accId f st).2 ↔
          ∃ id, st.phase = PartOne.HsPhase.awaitingAccAuth id
            ∧ f.clientMsgId = some id)
    ∧ (∀ (accId : String) (f : PartOne.Frame) (st : PartOne.HsState)
        (i : String),
        PartOne.HsAction.sendAccountAuth i ∈ (PartOne.hsDispatch accId f st).2
          ↔ (i = accId ∧ ∃ id, st.phase = PartOne.HsPhase.awaitingAppAuth id
              ∧ f.clientMsgId = some id))
    ∧ (∀ (accId : String) (st : PartOne.HsState) (cid : Option String)
        (pt1 pt2 : Nat) (ec1 ec2 : Option String),
        PartOne.hsDispatch accId ⟨pt1, cid, ec1⟩ st =
          PartOne.hsDispatch accId ⟨pt2, cid, ec2⟩ st) := by
  have hsend : ∀ (now : Int) (m : Index.Msg) (st : Index.ClientState),
      (Index.CAction.sendAccountAuth ∈ (Index.handleMessage now m st).2 ↔
        m.payloadType = Index.APPLICATION_AUTH_RES ∧ m.errorCode = none) := by
    intro now m st
    unfold Index.handleMessage
    split_ifs with h1 h2 h3 h4 h5 h6 h7 <;>
      first
      | (simp_all [Index.APPLICATION_AUTH_RES, Index.ACCOUNT_AUTH_RES,
          Index.NEW_ORDER_RES, Index.ERROR_RES, Index.HEARTBEAT_EVENT]; done)
      | (cases hm : m.clientMsgId with
         | none => simp_all
         | some id =>
             by_cases hid : id ∈ st.messageHandlers <;> simp_all)
  have hhb : ∀ (now : Int) (m : Index.Msg) (st : Index.ClientState),
      (Index.CAction.startHeartbeat ∈ (Index.handleMessage now m st).2 ↔
        m.payloadType = Index.ACCOUNT_AUTH_RES ∧ m.errorCode = none) := by
    intro now m st
    unfold Index.handleMessage
    split_ifs with h1 h2 h3 h4 h5 h6 h7 <;>
      first
      | (simp_all [Index.APPLICATION_AUTH_RES, Index.ACCOUNT_AUTH_RES,
          Index.NEW_ORDER_RES, Index.ERROR_RES, Index.HEARTBEAT_EVENT]; done)
      | (cases hm : m.clientMsgId with
         | none => simp_all
         | some id =>
             by_cases hid : id ∈ st.messageHandlers <;> simp_all)
  refine ⟨hsend, hhb, ?_, ?_, ?_, ?_, ?_, ?_⟩
  · intro now m st h1 h2
    simp [Index.handleMessage, h1, h2, Index.APPLICATION_AUTH_RES,
      Index.ACCOUNT_AUTH_RES]
  · intro now msgs
    induction msgs with
    | nil => intro st h; simp [Index.runClient] at h
    | cons m ms ih =>
        intro st h
        simp only [Index.runClient, List.mem_append] at h
        rcases h with h | h
        · exact ⟨m, List.mem_cons_self m ms, ((hhb now m st).1 h)⟩
        · obtain ⟨m2, hm2, hp⟩ := ih _ h
          exact ⟨m2, List.mem_cons_of_mem m hm2, hp⟩
  · intro now msgs
    induction msgs with
    | nil => intro st h; simp [Index.runClient] at h
    | cons m ms ih =>
        intro st h
        simp only [Index.runClient, List.mem_append] at h
        rcases h with h | h
        · exact ⟨m, List.mem_cons_self m ms, ((hsend now m st).1 h)⟩
        · obtain ⟨m2, hm2, hp⟩ := ih _ h
          exact ⟨m2, List.mem_cons_of_mem m hm2, hp⟩
  · intro accId f st
    cases hph : st.phase with
    | awaitingAppAuth id =>
        by_cases h : f.clientMsgId = some id <;>
          simp [PartOne.hsDispatch, hph, h]
    | awaitingAccAuth id =>
        by_cases h : f.clientMsgId = some id <;>
          simp [PartOne.hsDispatch, hph, h]
    | ready => simp [PartOne.hsDispatch, hph]
  · intro accId f st i
    cases hph : st.phase with
    | awaitingAppAuth id =>
        by_cases h : f.clientMsgId = some id <;>
          simp [PartOne.hsDispatch, hph, h]
    | awaitingAccAuth id =>
        by_cases h : f.clientMsgId = some id <;>
          simp [PartOne.hsDispatch, hph, h]
    | ready => simp [PartOne.hsDispatch, hph]
  · intro accId st cid pt1 pt2 ec1 ec2
    obtain ⟨ph, sr, po, rd⟩ := st
    cases ph <;> rfl

/-- Witness for C3 amended at concrete inputs: an error-free account-auth
reply starts the heartbeat in index.js, an error-payload account-auth reply
is a no-op there, and in part_001 a frame echoing the awaited account-auth
clientMsgId starts the ping even though it carries an error payload. -/
theorem c3_handshake_sequencing_amended_witness :
    (Index.CAction.startHeartbeat ∈
      (Index.handleMessage 0 ⟨2103, some "acc_auth_1", none⟩
        ⟨false, false, [], false, 0⟩).2)
    ∧ Index.handleMessage 0 ⟨2103, some "acc_auth_1", some "CH_ACCESS_DENIED"⟩
        ⟨false, false, [], false, 0⟩ = (⟨false, false, [], false, 0⟩, [])
    ∧ PartOne.HsAction.startPing ∈
        (PartOne.hsDispatch "m_next" ⟨39, some "m_acc", some "ERR_X"⟩
          ⟨PartOne.HsPhase.awaitingAccAuth "m_acc", false, false, 5000⟩).2 := by
  refine ⟨(c3_handshake_sequencing_amended.2.1 0 ⟨2103, some "acc_auth_1", none⟩
      ⟨false, false, [], false, 0⟩).2 ⟨rfl, rfl⟩,
    c3_handshake_sequencing_amended.2.2.1 0
      ⟨2103, some "acc_auth_1", some "CH_ACCESS_DENIED"⟩
      ⟨false, false, [], false, 0⟩ rfl (by simp),
    (c3_handshake_sequencing_amended.2.2.2.2.2.1 "m_next"
      ⟨39, some "m_acc", some "ERR_X"⟩
      ⟨PartOne.HsPhase.awaitingAccAuth "m_acc", false, false, 5000⟩).2
      ⟨"m_acc", rfl, rfl⟩⟩

/- ====================================================================
   C4 : POST /order while not ready — 503, nothing sent
   ==================================================================== -/

/-- C4: a POST /order arriving while the session is not ready is answered
503 before anything touches the socket: no wire message is sent and no
PendingRequest is registered — in index.js (the `isReady` guard) and in
part_001 (the `socketReady` guard). -/
theorem c4_not_ready_503 :
    (∀ (wsOpen : Bool) (st : Index.ClientState) (b : Index.OrderBody)
        (o : Index.OrderOutcome), Index.isReady wsOpen st = false →
        Index.orderEndpoint wsOpen st b o = ⟨503, false, false⟩)
    ∧ PartOne.orderGuard false = some (503, false, false) := by
  refine ⟨?_, rfl⟩
  intro wsOpen st b o h
  simp [Index.orderEndpoint, h]

/-- Witness for C4: a structurally valid order posted on a closed socket
gets 503 with nothing sent and nothing registered. -/
theorem c4_not_ready_503_witness :
    Index.orderEndpoint false ⟨true, true, [], false, 0⟩
        ⟨none, some 1, some 1, some 100000, none⟩ Index.OrderOutcome.success
      = ⟨503, false, false⟩ :=
  c4_not_ready_503.1 false ⟨true, true, [], false, 0⟩
    ⟨none, some 1, some 1, some 100000, none⟩ Index.OrderOutcome.success
    (by decide)

/- ====================================================================
   C5 : HTTP status mapping of POST /order
   ==================================================================== -/

/-- C5 counterexample: in index.js a correlator timeout does not yield 504.
A ready client, a valid order body, and a timed-out `sendOrder` produce
status 400 (the generic catch block), not 504. -/
theorem c5_timeout_status_counterexample :
    Index.orderEndpoint true ⟨true, true, [], false, 0⟩
        ⟨none, some 1, some 1, some 100000, none⟩ Index.OrderOutcome.timeout
      = ⟨400, true, true⟩
    ∧ (Index.orderEndpoint true ⟨true, true, [], false, 0⟩
        ⟨none, some 1, some 1, some 100000, none⟩
        Index.OrderOutcome.timeout).status ≠ 504 := by
  exact ⟨by decide, by decide⟩

/-- C5 amended: the status table holds with the timeout row split by
variant — 200 on a success reply, 400 on validation failure or broker
rejection, 503 when not ready; a correlator timeout yields 504 only in the
part_002 listener-based variant, while in index.js every `sendOrder`
rejection (timeout included) is reported as 400. -/
theorem c5_status_mapping_amended :
    (PartTwoV.listenerStatus PartTwoV.Outcome.timeout = 504)
    ∧ (PartTwoV.listenerStatus (PartTwoV.Outcome.reply 2121) = 200)
    ∧ (PartTwoV.listenerStatus (PartTwoV.Outcome.reply 2142) = 400)
    ∧ (∀ (hs hsd hv : Bool) (ot : String) (hp : Bool) (o : PartTwoV.Outcome),
        PartTwoV.orderEndpoint false true hs hsd hv ot hp o = 503)
    ∧ (∀ (o : PartTwoV.Outcome),
        PartTwoV.orderEndpoint true true true true true "1" false o =
          PartTwoV.listenerStatus o)
    ∧ (∀ (wsOpen : Bool) (st : Index.ClientState) (b : Index.OrderBody),
        Index.isReady wsOpen st = true →
        (Index.orderEndpoint wsOpen st b Index.OrderOutcome.timeout).status
          = 400)
    ∧ (∀ (wsOpen : Bool) (st : Index.ClientState) (b : Index.OrderBody)
        (o : Index.OrderOutcome), Index.isReady wsOpen st = false →
        (Index.orderEndpoint wsOpen st b o).status = 503)
    ∧ (∀ (st : Index.ClientState), Index.isReady true st = true →
        (Index.orderEndpoint true st ⟨none, some 1, some 1, some 100000, none⟩
            Index.OrderOutcome.success).status = 200
        ∧ ∀ d, (Index.orderEndpoint true st
            ⟨none, some 1, some 1, some 100000, none⟩
            (Index.OrderOutcome.brokerReject d)).status = 400) := by
  refine ⟨rfl, rfl, rfl, ?_, ?_, ?_, ?_, ?_⟩
  · intro hs hsd hv ot hp o
    simp [PartTwoV.orderEndpoint]
  · intro o
    simp [PartTwoV.orderEndpoint]
  · intro wsOpen st b h
    simp only [Index.orderEndpoint, h, Bool.not_true, Bool.false_eq_true,
      if_false]
    split_ifs <;> rfl
  · intro wsOpen st b o h
    simp [Index.orderEndpoint, h]
  · intro st h
    constructor
    · simp [Index.orderEndpoint, h, Index.jsTruthyInt]
    · intro d
      simp [Index.orderEndpoint, h, Index.jsTruthyInt]

/-- Witness for C5 amended: the part_002 variant answers a timed-out order
with 504 while index.js answers the same situation with 400. -/
theorem c5_status_mapping_amended_witness :
    PartTwoV.orderEndpoint true true true true true "1" false
        PartTwoV.Outcome.timeout
      = PartTwoV.listenerStatus PartTwoV.Outcome.timeout
    ∧ (Index.orderEndpoint true ⟨true, true, [], false, 0⟩
        ⟨none, some 1, some 1, some 100000, none⟩
        Index.OrderOutcome.timeout).status = 400 :=
  ⟨c5_status_mapping_amended.2.2.2.2.1 PartTwoV.Outcome.timeout,
   c5_status_mapping_amended.2.2.2.2.2.1 true ⟨true, true, [], false, 0⟩
     ⟨none, some 1, some 1, some 100000, none⟩ (by decide)⟩

/- ====================================================================
   C6 : bounds of the scheduled token-refresh delay
   ==================================================================== -/

/-- C6 counterexample: with the provider reporting no `expiresIn` (the
default 30 days applies), index.js schedules the next refresh 2332800
seconds (27 days) ahead — far outside the claimed `[1 minute, 24 hours]`
interval. -/
theorem c6_refresh_delay_counterexample :
    Index.nextRefreshDelay none = 2332800
    ∧ ¬(Index.nextRefreshDelay none ≤ 86400) := by
  exact ⟨by decide, by decide⟩

/-- C6 amended: for every provider-reported `expiresIn` (absent, zero,
tiny or huge), the delay scheduled for the next automatic refresh lies
within [1 hour, 27 days] — the clamp actually applied by
`scheduleNextRefresh` — not within [1 minute, 24 hours]. -/
theorem c6_refresh_delay_amended :
    ∀ (expiresIn : Option Int),
      3600 ≤ Index.nextRefreshDelay expiresIn
      ∧ Index.nextRefreshDelay expiresIn ≤ 2332800
      ∧ ∀ (seconds : Int), 3600 ≤ Index.scheduleNextRefresh seconds
          ∧ Index.scheduleNextRefresh seconds ≤ 2332800 := by
  intro e
  unfold Index.nextRefreshDelay Index.scheduleNextRefresh
  refine ⟨?_, ?_, ?_⟩
  · omega
  · omega
  · intro s
    constructor <;> omega

/- ====================================================================
   C7 : handling of HTTP 429 on token refresh
   ==================================================================== -/

/-- C7 counterexample: in index.js a 429 is not a soft retry.
`refreshOn429` at retryCount 0 (maxRetries 3) rethrows the error to the
caller and schedules the retry 120000 ms out — the error propagates and the
delay is outside [30000, 60000]. -/
theorem c7_429_handling_counterexample :
    Index.refreshOn429 0 3 = (true, some 120000)
    ∧ (Index.refreshOn429 0 3).1 = true
    ∧ ¬(120000 ≤ 60000) := by
  exact ⟨by decide, by decide, by decide⟩

/-- C7 amended: in the part_001 `refreshToken` a 429 retries after a delay
in [30000, 60000] ms with no error surfaced to the caller; in index.js a
429 falls into the generic failure path — the error is rethrown to the
caller and, below the retry ceiling, a retry is scheduled after
`min (60000 * 2^(retryCount+1)) 300000` ms. -/
theorem c7_429_handling_amended :
    (∀ rand30 : Nat, rand30 ≤ 30000 →
      (PartOne.refresh429 rand30).2 = false
      ∧ 30000 ≤ (PartOne.refresh429 rand30).1
      ∧ (PartOne.refresh429 rand30).1 ≤ 60000)
    ∧ (∀ rc mr : Nat, rc + 1 < mr →
        Index.refreshOn429 rc mr =
          (true, some (min (60000 * 2 ^ (rc + 1)) 300000))) := by
  constructor
  · intro r h
    refine ⟨rfl, ?_, ?_⟩
    · simp [PartOne.refresh429]
    · simp [PartOne.refresh429]
      omega
  · intro rc mr h
    unfold Index.refreshOn429
    rw [if_neg (by omega)]

/-- Witness for C7 amended at rand30 = 15000 and retryCount 0. -/
theorem c7_429_handling_amended_witness :
    ((PartOne.refresh429 15000).2 = false
      ∧ 30000 ≤ (PartOne.refresh429 15000).1
      ∧ (PartOne.refresh429 15000).1 ≤ 60000)
    ∧ Index.refreshOn429 0 3 = (true, some (min (60000 * 2 ^ 1) 300000)) :=
  ⟨c7_429_handling_amended.1 15000 (by decide),
   c7_429_handling_amended.2 0 3 (by decide)⟩

/- ====================================================================
   C8 : single-flight token refresh
   ==================================================================== -/

/-- C8: while a refresh is in flight (`isRefreshing` is set), every
`getValidToken` call either returns the still-valid cached token or joins
the in-flight refresh as a waiter; none starts a refresh of its own, so N
concurrent calls contribute zero additional HTTPS requests and the total
for the window is exactly the one already in flight. -/
theorem c8_single_flight :
    ∀ (s : Index.TMState), s.isRefreshing = true →
      (∀ n : Int,
        Index.getValidToken n s = Index.TokenDecision.waitForRefresh
        ∨ ∃ t, Index.getValidToken n s = Index.TokenDecision.useCached t)
      ∧ ∀ (nows : List Int),
        1 + (nows.map
          (fun n => Index.httpCallsOf (Index.getValidToken n s))).sum = 1 := by
  intro s hs
  have hdec : ∀ n : Int,
      Index.getValidToken n s = Index.TokenDecision.waitForRefresh
      ∨ ∃ t, Index.getValidToken n s = Index.TokenDecision.useCached t := by
    intro n
    unfold Index.getValidToken
    cases hsa : s.accessToken with
    | none => left; simp [hs]
    | some t =>
        by_cases hn : n < s.expiryTime - 3600000
        · right; exact ⟨t, by simp [hn]⟩
        · left; simp [hn, hs]
  refine ⟨hdec, ?_⟩
  intro nows
  have hz : ∀ x ∈ nows.map
      (fun n => Index.httpCallsOf (Index.getValidToken n s)), x = 0 := by
    intro x hx
    obtain ⟨n, _, rfl⟩ := List.mem_map.1 hx
    rcases hdec n with h | ⟨t, h⟩ <;> simp [h, Index.httpCallsOf]
  rw [List.sum_eq_zero hz]
  rfl

/-- Witness for C8: with a refresh in flight and no cached token, three
callers all wait and issue zero HTTPS requests. -/
theorem c8_single_flight_witness :
    (Index.getValidToken 0 ⟨none, 0, true⟩
        = Index.TokenDecision.waitForRefresh
      ∨ ∃ t, Index.getValidToken 0 ⟨none, 0, true⟩
        = Index.TokenDecision.useCached t)
    ∧ 1 + (([1, 2, 3] : List Int).map
        (fun n => Index.httpCallsOf
          (Index.getValidToken n ⟨none, 0, true⟩))).sum = 1 :=
  ⟨(c8_single_flight ⟨none, 0, true⟩ rfl).1 0,
   (c8_single_flight ⟨none, 0, true⟩ rfl).2 [1, 2, 3]⟩

/- ====================================================================
   C9 : malformed inbound frames are silently ignored
   ==================================================================== -/

/-- C9: an inbound frame whose bytes do not parse leaves the message
handler immediately — the client state (session flags, pending map, all of
it) is unchanged and no dispatch action is emitted, in index.js's
`onMessage` and in the part_001 message handler alike. -/
theorem c9_malformed_frame_ignored :
    (∀ (parse : String → Option Index.Msg) (now : Int) (raw : String)
        (st : Index.ClientState), parse raw = none →
        Index.onMessage parse now raw st = (st, []))
    ∧ (∀ (parse : String → Option (Nat × Option String)) (raw : String)
        (s : List String), parse raw = none →
        PartOne.onFrame parse raw s = (s, [])) := by
  refine ⟨?_, ?_⟩
  · intro parse now raw st h
    simp [Index.onMessage, h]
  · intro parse raw s h
    simp [PartOne.onFrame, h]

/-- Witness for C9 on a concrete non-JSON frame. -/
theorem c9_malformed_frame_ignored_witness :
    Index.onMessage (fun _ => none) 0 "not json" ⟨false, false, [], false, 0⟩
      = (⟨false, false, [], false, 0⟩, [])
    ∧ PartOne.onFrame (fun _ => none) "not json" ["m_1"] = (["m_1"], []) :=
  ⟨c9_malformed_frame_ignored.1 (fun _ => none) 0 "not json"
     ⟨false, false, [], false, 0⟩ rfl,
   c9_malformed_frame_ignored.2 (fun _ => none) "not json" ["m_1"] rfl⟩

/- ====================================================================
   C10 : GET /token-update is read-once
   ==================================================================== -/

/-- C10: with the correct auth key and a pending rotated token, the
response carries the token and the pending slot is cleared in the same
request, so an immediately following authorized request reports
no_pending_token; a wrong or missing key gets 401 and leaves the pending
slot exactly as it was. -/
theorem c10_token_update_read_once :
    (∀ (k t : String),
      Index.tokenUpdate (some k) (some k) (some t)
        = (200, Index.TokenUpdateResp.tokenAvailable t, none))
    ∧ (∀ (k : String),
      Index.tokenUpdate (some k) (some k) none
        = (200, Index.TokenUpdateResp.noPending, none))
    ∧ (∀ (a c p : Option String), a ≠ c →
      Index.tokenUpdate a c p = (401, Index.TokenUpdateResp.unauthorized, p)) := by
  refine ⟨?_, ?_, ?_⟩
  · intro k t
    simp [Index.tokenUpdate]
  · intro k
    simp [Index.tokenUpdate]
  · intro a c p h
    simp [Index.tokenUpdate, h]

/-- Witness for C10: handing out a pending token clears it; the follow-up
authorized call sees none; a missing key is refused with the pending slot
intact. -/
theorem c10_token_update_read_once_witness :
    Index.tokenUpdate (some "s3cret") (some "s3cret") (some "rt_new")
        = (200, Index.TokenUpdateResp.tokenAvailable "rt_new", none)
    ∧ Index.tokenUpdate (some "s3cret") (some "s3cret") none
        = (200, Index.TokenUpdateResp.noPending, none)
    ∧ Index.tokenUpdate none (some "s3cret") (some "rt_new")
        = (401, Index.TokenUpdateResp.unauthorized, some "rt_new") :=
  ⟨c10_token_update_read_once.1 "s3cret" "rt_new",
   c10_token_update_read_once.2.1 "s3cret",
   c10_token_update_read_once.2.2 none (some "s3cret") (some "rt_new")
     (by decide)⟩
